import Mathlib

/-!
Shallow embedding of `src/js/script.js` (consolidated site script) and
verification of its specified behaviours.

Each section embeds one initializer of the script:
* `initMenu` (menu toggle, dedup of synthetic events, outside click, Escape),
* `initActiveLinks` (nav-link click delegation and scroll highlighting),
* `animateProgressBars` (interval-driven progress animation),
* `initMapToggle`, `initContactHelpers` (form submit, copy-email toast).

DOM state relevant to each component is modelled explicitly; event handlers
become pure step functions on that state.
-/

namespace SiteScript

/-! ## Menu controller (`initMenu`, lines 20-74)

State of the menu subsystem: whether `nav ul` carries the `show` class,
the current value of the toggle's `aria-expanded` attribute (`none` when the
attribute has never been set), the `lastTouch` timestamp, and a ghost counter
of how many times `navUl.classList.toggle('show')` has executed. -/

structure MenuState where
  showCls : Bool
  aria : Option String
  lastTouch : Nat
  toggles : Nat
deriving DecidableEq, Repr

/-- Events that can reach the menu subsystem's handlers: activation events on
the toggle (with their `Date.now()` timestamp and, for pointer events, the
`pointerType`), the document-level click (with whether the click target lies
inside `nav`), the document-level Escape keydown, and the effect of the
nav-link click handler of `initActiveLinks` (line 90), which removes `show`
from an open menu. -/
inductive MenuEvent where
  | pointerdown (pointerType : String) (now : Nat)
  | click (now : Nat)
  | touchstart (now : Nat)
  | keyActivate (now : Nat)
  | docClick (insideNav : Bool)
  | docEscape
  | navLinkClick
deriving DecidableEq, Repr

/-- Embedding of `setExpanded` (line 25): writes `aria-expanded` as `'true'`/`'false'`. -/
def setExpanded (v : Bool) : Option String :=
  some (if v then "true" else "false")

/-- Embedding of `TOUCH_IGNORE_MS` (line 27). -/
def TOUCH_IGNORE_MS : Nat := 900

/-- Embedding of `toggleMenu` (lines 30-43), parameterised by the event's `type`,
`pointerType` (when it has one) and `Date.now()`.  A click/pointerdown within
`TOUCH_IGNORE_MS` of `lastTouch` returns early; a touchstart, or a
pointerdown of pointer type `touch`, records `lastTouch`; otherwise the
`show` class is toggled and `aria-expanded` synchronised. -/
def toggleMenu (etype : String) (pointerType : Option String) (now : Nat)
    (s : MenuState) : MenuState :=
  if (etype = "click" ∨ etype = "pointerdown") ∧ now - s.lastTouch < TOUCH_IGNORE_MS then
    s
  else
    let lt :=
      if etype = "touchstart" ∨ (etype = "pointerdown" ∧ pointerType = some "touch") then
        now
      else s.lastTouch
    let shw := !s.showCls
    { showCls := shw, aria := setExpanded shw, lastTouch := lt, toggles := s.toggles + 1 }

/-- One step of the menu subsystem: dispatches an event to the handler the
script attaches for it.  The toggle's activation handlers all call
`toggleMenu`; the document click handler (lines 65-71) closes an open menu
when the click lands outside `nav` and synchronises `aria-expanded`; the
Escape handler (line 73) does the same on Escape; the nav-link click handler
(line 90) removes `show` from an open menu without touching `aria-expanded`. -/
def menuStep (s : MenuState) : MenuEvent → MenuState
  | .pointerdown pt now => toggleMenu "pointerdown" (some pt) now s
  | .click now => toggleMenu "click" none now s
  | .touchstart now => toggleMenu "touchstart" none now s
  | .keyActivate now => toggleMenu "keydown" none now s
  | .docClick insideNav =>
      if s.showCls then
        if insideNav then s
        else { s with showCls := false, aria := setExpanded false }
      else s
  | .docEscape =>
      if s.showCls then { s with showCls := false, aria := setExpanded false } else s
  | .navLinkClick =>
      if s.showCls then { s with showCls := false } else s

/-- The accessibility invariant: `aria-expanded` reads `'true'` exactly when
the navigation list carries `show`. -/
def ariaMatches (s : MenuState) : Prop :=
  s.aria = some (if s.showCls then "true" else "false")

instance (s : MenuState) : Decidable (ariaMatches s) := by
  unfold ariaMatches; infer_instance

/-- The events whose handlers are attached by `initMenu` itself (toggle
activation, outside click, Escape) — everything except the nav-link click
handler of `initActiveLinks`. -/
def menuInitEvent : MenuEvent → Prop
  | .navLinkClick => False
  | _ => True

end SiteScript

namespace SiteScript

/-! ## Active link tracking (`initActiveLinks`, lines 77-108) -/

/-- A navigation link (`nav ul li a`): its `href` attribute (`none` when the
attribute is absent, as `getAttribute` then returns `null`) and whether it
carries the `active` class. -/
structure Link where
  href : Option String
  active : Bool
deriving DecidableEq, Repr

/-- A `section[id]` element: its `id`, `offsetTop` and `offsetHeight`. -/
structure SectionEl where
  id : String
  top : Int
  height : Int
deriving DecidableEq, Repr

/-- Embedding of `navLinks.forEach(l => l.classList.remove('active'))` (lines 88, 103). -/
def clearActive (links : List Link) : List Link :=
  links.map fun l => { l with active := false }

/-- Embedding of `classList.add('active')` on the link at index `j` (lines 89, 103). -/
def activateAt (links : List Link) (j : Nat) : List Link :=
  match links[j]? with
  | some l => links.set j { l with active := true }
  | none => links

/-- Embedding of `document.querySelector('nav ul li a[href="#id"]')` (line 101): the index
of the first link whose `href` attribute is exactly `#id`. -/
def findLinkIdx (links : List Link) (id : String) : Option Nat :=
  links.findIdx? fun l => l.href == some ("#" ++ id)

/-- Embedding of the range test `y >= top && y < top + height` (line 102). -/
def InRange (sec : SectionEl) (y : Int) : Prop :=
  sec.top ≤ y ∧ y < sec.top + sec.height

instance (sec : SectionEl) (y : Int) : Decidable (InRange sec y) := by
  unfold InRange; infer_instance

/-- Body of the scroll handler's `for` loop (lines 97-105) for one section:
when `y` falls inside the section's range and a nav link with the section's
id exists, every link's `active` class is removed and that link's added. -/
def scrollBody (y : Int) (ls : List Link) (sec : SectionEl) : List Link :=
  if InRange sec y then
    match findLinkIdx ls sec.id with
    | some j => activateAt (clearActive ls) j
    | none => ls
  else ls

/-- The scroll handler (lines 95-106): computes `y = scrollY + 120` and runs
the loop body over the sections in document order. -/
def scrollStep (links : List Link) (sections : List SectionEl) (scrollY : Int) :
    List Link :=
  sections.foldl (scrollBody (scrollY + 120)) links

/-- State touched by the click-delegation handler: the nav links and whether
the menu list carries `show` (its `aria-expanded` interplay is covered by
`menuStep`'s `navLinkClick` event). -/
structure NavState where
  links : List Link
  menuShow : Bool
deriving DecidableEq, Repr

/-- Embedding of `href.startsWith('#')` (line 83): whether the string's first character
is `#`. -/
def startsWithHash (s : String) : Bool :=
  match s.data with
  | [] => false
  | c :: _ => c = '#'

/-- The click-delegation handler (lines 79-91) for a click whose
`closest('nav ul li a')` is the link at index `i`: when the link's href
(or `''` when absent) starts with `#`, the default is prevented and the
target scrolled into view; the clicked link becomes active after all links
are cleared; an open menu list loses its `show` class.  Returns the new
state paired with whether `preventDefault` was called. -/
def navClickStep (s : NavState) (i : Nat) : NavState × Bool :=
  match s.links[i]? with
  | none => (s, false)
  | some a =>
      let href := a.href.getD ""
      let prevented := startsWithHash href
      ({ links := activateAt (clearActive s.links) i, menuShow := false }, prevented)

/-! ## Progress bars (`animateProgressBars`, lines 111-116) -/

/-- Value of a non-empty string of decimal digits. -/
def digitsValue (ds : List Char) : Nat :=
  ds.foldl (fun acc c => acc * 10 + (c.toNat - 48)) 0

/-- Embedding of `parseInt(s, 10)`: leading whitespace is skipped, an optional sign read,
then the longest prefix of decimal digits; `none` models `NaN` (no digits). -/
def parseIntJS (s : String) : Option Int :=
  let cs := s.data.dropWhile Char.isWhitespace
  let signAndDigits : Int × List Char :=
    match cs with
    | '-' :: rest => (-1, rest)
    | '+' :: rest => (1, rest)
    | _ => (1, cs)
  let digits := signAndDigits.2.takeWhile Char.isDigit
  if digits = [] then none
  else some (signAndDigits.1 * (digitsValue digits : Int))

/-- The target computation (line 113):
`parseInt(bar.dataset.progress || bar.getAttribute('data-progress') || 0, 10) || 0`.
`dataset.progress` mirrors the `data-progress` attribute, so both reads are
modelled by one optional attribute.  An absent attribute (`undefined`/`null`)
and the empty string are falsy, so `parseInt` then receives `0`; a `NaN`
result is falsy and falls back to `0`. -/
def targetOf (attr : Option String) : Int :=
  match attr with
  | none => 0
  | some s =>
      if s = "" then 0
      else
        match parseIntJS s with
        | none => 0
        | some v => v

/-- The width style and text content of one `.progress-bar` element. -/
structure PBar where
  width : String
  text : String
deriving DecidableEq, Repr

/-- The interval callback of `animateProgressBars` (line 114), iterated until
it clears its own interval: each tick either stops (when `w >= target`) or
increments `w` and writes `w + '%'` to the bar's width style and text. -/
def progressTicks (target : Int) (w : Nat) (bar : PBar) : PBar :=
  if (w : Int) ≥ target then bar
  else progressTicks target (w + 1) ⟨toString (w + 1) ++ "%", toString (w + 1) ++ "%"⟩
termination_by (target - w).toNat
decreasing_by omega

/-- One `.progress-bar` element processed to completion (lines 112-115):
the target is parsed from the `data-progress` attribute and the interval
callback runs from `w = 0` until cleared. -/
def animateBar (attr : Option String) (bar : PBar) : PBar :=
  progressTicks (targetOf attr) 0 bar

/-! ## Map toggle (`initMapToggle`, lines 130-140) -/

/-- The map container's `expanded` class and the toggle button's label. -/
structure MapState where
  expanded : Bool
  label : String
deriving DecidableEq, Repr

/-- The map-toggle click handler (lines 134-139): toggles `expanded` on the
container and sets the button text from the new state (the smooth scroll is
visual and not modelled). -/
def mapToggleClick (s : MapState) : MapState :=
  let expanded := !s.expanded
  { expanded := expanded
    label := if expanded then "Ver mapa compacto" else "Ver mapa completo" }

/-! ## Contact helpers (`initContactHelpers`, lines 143-167) -/

/-- Outcome of one contact-form submit handler run (lines 161-165): whether
`preventDefault` was called and which toast was shown. -/
structure SubmitResult where
  prevented : Bool
  toast : Option String
deriving DecidableEq, Repr

/-- The submit handler (lines 161-165): `actionUrl` is the `action`
attribute or `''`; when falsy the submission is prevented and the
unconfigured-target toast shown, otherwise the in-flight toast is shown and
submission proceeds natively. -/
def submitStep (action : Option String) : SubmitResult :=
  let actionUrl := action.getD ""
  if actionUrl = "" then
    { prevented := true, toast := some "No hay destino configurado para el formulario" }
  else
    { prevented := false, toast := some "Enviando mensaje..." }

/-- The copy-email click handler (lines 153-156): the clipboard write either
resolves or rejects (rejection also covers an unavailable clipboard, thrown
inside the `try`); the `try`/`catch` maps both outcomes to a toast.  The
result is in `Except`, where `Except.error` would model an exception
escaping the handler. -/
def copyEmailHandler (clipboardWrite : Except Unit Unit) : Except Unit String :=
  match clipboardWrite with
  | .ok _ => .ok "Correo copiado al portapapeles"
  | .error _ => .ok "No se pudo copiar. Selecciona el correo manualmente."

end SiteScript

namespace SiteScript

/-! ## Predicates used by the claims -/

/-- A follow-up activation event at time `t`: a click, or a pointer-down of
any pointer type. -/
def followUpEvent (e : MenuEvent) (t : Nat) : Prop :=
  e = .click t ∨ ∃ pt, e = .pointerdown pt t

/-- Wellformedness of the page's sections assumed by the spec: no two
sections' `[top, top + height)` ranges overlap. -/
def DisjointRanges (sections : List SectionEl) : Prop :=
  sections.Pairwise fun a b => ∀ z : Int, ¬(InRange a z ∧ InRange b z)

/-- At most one navigation link carries the `active` class. -/
def AtMostOneActive (links : List Link) : Prop :=
  ∀ i j (hi : i < links.length) (hj : j < links.length),
    links[i].active = true → links[j].active = true → i = j

/-! ## Lemmas about the link-list operations -/

theorem length_clearActive (links : List Link) :
    (clearActive links).length = links.length := by
  simp [clearActive]

theorem length_activateAt (links : List Link) (j : Nat) :
    (activateAt links j).length = links.length := by
  unfold activateAt
  cases h : links[j]? <;> simp

theorem activateAt_clearActive_getElem? (links : List Link) (j k : Nat)
    (hj : j < links.length) :
    (activateAt (clearActive links) j)[k]? =
      links[k]?.map fun l => { href := l.href, active := decide (k = j) } := by
  have hjc : j < (clearActive links).length := by
    rw [length_clearActive]; exact hj
  unfold activateAt
  rw [show (clearActive links)[j]? = some { href := links[j].href, active := false } by
    simp [clearActive, List.getElem?_eq_getElem hj]]
  by_cases hkj : k = j
  · subst hkj
    rw [List.getElem?_set_self hjc, List.getElem?_eq_getElem hj]
    simp
  · rw [List.getElem?_set_ne (fun h => hkj h.symm)]
    simp [clearActive, hkj]

theorem activateAt_clearActive_active_iff (links : List Link) (j k : Nat)
    (hj : j < links.length)
    (hk : k < (activateAt (clearActive links) j).length) :
    ((activateAt (clearActive links) j)[k].active = true) ↔ k = j := by
  have hk' : k < links.length := by
    rw [length_activateAt, length_clearActive] at hk; exact hk
  have h := activateAt_clearActive_getElem? links j k hj
  rw [List.getElem?_eq_getElem hk, List.getElem?_eq_getElem hk'] at h
  simp only [Option.map_some', Option.some.injEq] at h
  rw [h]
  simp

theorem atMostOne_activateAt_clearActive (links : List Link) (j : Nat)
    (hj : j < links.length) :
    AtMostOneActive (activateAt (clearActive links) j) := by
  intro a b ha hb hact1 hact2
  have h1 := (activateAt_clearActive_active_iff links j a hj ha).mp hact1
  have h2 := (activateAt_clearActive_active_iff links j b hj hb).mp hact2
  rw [h1, h2]

/-! ## Contact helpers: claims C6, C10, C7 -/

/-- C6: on contact-form submission, when the form has no configured action
target (the `action` attribute read as `''` when absent is empty, hence
falsy) the submission is prevented and the toast
"No hay destino configurado para el formulario" is shown; otherwise the
submission proceeds natively and the toast "Enviando mensaje..." is shown. -/
theorem submit_no_target_prevented_else_sending (action : Option String) :
    (action.getD "" = "" →
      submitStep action =
        ⟨true, some "No hay destino configurado para el formulario"⟩) ∧
    (action.getD "" ≠ "" →
      submitStep action = ⟨false, some "Enviando mensaje..."⟩) := by
  constructor <;> intro h <;> simp [submitStep, h]

/-- Witness for C6 at the concrete inputs `none` and a nonempty action URL. -/
theorem submit_no_target_prevented_else_sending_witness :
    submitStep none =
      ⟨true, some "No hay destino configurado para el formulario"⟩ ∧
    submitStep (some "https://example.com/send") =
      ⟨false, some "Enviando mensaje..."⟩ :=
  ⟨(submit_no_target_prevented_else_sending none).1 (by decide),
   (submit_no_target_prevented_else_sending (some "https://example.com/send")).2
     (by decide)⟩

/-- C10: an `action` attribute present but equal to the empty string is
treated exactly like an absent attribute: the submission is prevented and
the unconfigured-target toast is shown. -/
theorem submit_empty_action_like_absent :
    submitStep (some "") = submitStep none ∧
    submitStep (some "") =
      ⟨true, some "No hay destino configurado para el formulario"⟩ := by
  constructor <;> rfl

/-- C7: the copy-email handler shows the success toast when the clipboard
write resolves and the fallback toast when it rejects, and for every
clipboard outcome it returns normally — no exception escapes the handler. -/
theorem copy_email_toasts_never_propagate :
    copyEmailHandler (.ok ()) = .ok "Correo copiado al portapapeles" ∧
    copyEmailHandler (.error ()) =
      .ok "No se pudo copiar. Selecciona el correo manualmente." ∧
    ∀ clipboardWrite, ∃ msg, copyEmailHandler clipboardWrite = .ok msg := by
  refine ⟨rfl, rfl, fun cw => ?_⟩
  cases cw <;> exact ⟨_, rfl⟩

/-! ## Map toggle: claim C8 -/

/-- C8: from the collapsed state, one click expands the map container and
sets the button label to "Ver mapa compacto"; a second click collapses it
again and sets "Ver mapa completo"; when the initial label was
"Ver mapa completo", two clicks restore the state exactly. -/
theorem map_toggle_two_clicks (s : MapState) (h : s.expanded = false) :
    (mapToggleClick s).expanded = true ∧
    (mapToggleClick s).label = "Ver mapa compacto" ∧
    (mapToggleClick (mapToggleClick s)).expanded = false ∧
    (mapToggleClick (mapToggleClick s)).label = "Ver mapa completo" ∧
    (s.label = "Ver mapa completo" → mapToggleClick (mapToggleClick s) = s) := by
  obtain ⟨e, l⟩ := s
  simp only at h
  subst h
  refine ⟨rfl, rfl, rfl, rfl, fun hl => ?_⟩
  simp only at hl
  subst hl
  rfl

/-- Witness for C8 at the concrete collapsed state with label
"Ver mapa completo". -/
theorem map_toggle_two_clicks_witness :
    (mapToggleClick ⟨false, "Ver mapa completo"⟩).label = "Ver mapa compacto" ∧
    mapToggleClick (mapToggleClick ⟨false, "Ver mapa completo"⟩) =
      ⟨false, "Ver mapa completo"⟩ := by
  have h := map_toggle_two_clicks ⟨false, "Ver mapa completo"⟩ rfl
  exact ⟨h.2.1, h.2.2.2.2 rfl⟩

end SiteScript

namespace SiteScript

/-! ## Menu controller: claims C1, C3, C9 -/

/-- C1 as stated is false: opening the menu (click at 1000 ms) and then
clicking a navigation link closes the list through the `initActiveLinks`
handler but leaves `aria-expanded` at `'true'`, so the attribute no longer
matches the hidden list. -/
theorem menu_aria_sync_counterexample :
    ariaMatches (⟨false, some "false", 0, 0⟩ : MenuState) ∧
    (menuStep (menuStep ⟨false, some "false", 0, 0⟩ (.click 1000))
      .navLinkClick).showCls = false ∧
    (menuStep (menuStep ⟨false, some "false", 0, 0⟩ (.click 1000))
      .navLinkClick).aria = some "true" ∧
    ¬ ariaMatches (menuStep (menuStep ⟨false, some "false", 0, 0⟩ (.click 1000))
      .navLinkClick) := by
  decide

/-- C1 amended: every handler attached by `initMenu` itself (toggle
activation by pointer, click, touch or keyboard, outside click, Escape)
preserves the synchronisation of `aria-expanded` with the `show` class; the
nav-link click handler of `initActiveLinks` must be excluded, since it
removes `show` without updating the attribute. -/
theorem menu_aria_sync_init_handlers (s : MenuState) (e : MenuEvent)
    (hinit : menuInitEvent e) (h : ariaMatches s) :
    ariaMatches (menuStep s e) := by
  have htm : ∀ etype pt now, ariaMatches (toggleMenu etype pt now s) := by
    intro etype pt now
    unfold toggleMenu
    split
    · exact h
    · simp [ariaMatches, setExpanded]
  cases e with
  | navLinkClick => simp [menuInitEvent] at hinit
  | docClick insideNav =>
      simp only [menuStep]
      split
      · split
        · exact h
        · simp [ariaMatches, setExpanded]
      · exact h
  | docEscape =>
      simp only [menuStep]
      split
      · simp [ariaMatches, setExpanded]
      · exact h
  | pointerdown pt now => exact htm "pointerdown" (some pt) now
  | click now => exact htm "click" none now
  | touchstart now => exact htm "touchstart" none now
  | keyActivate now => exact htm "keydown" none now

/-- Witness for C1's amended invariant at a concrete state and event. -/
theorem menu_aria_sync_init_handlers_witness :
    ariaMatches (menuStep ⟨false, some "false", 0, 0⟩ (.click 1000)) :=
  menu_aria_sync_init_handlers ⟨false, some "false", 0, 0⟩ (.click 1000)
    (by simp [menuInitEvent]) (by decide)

/-- C3: a touch-start on the toggle followed by a pointer-down or click
within 900 ms yields exactly one visibility toggle over the whole sequence:
the touch-start records its timestamp and toggles, and the follow-up
synthetic event is ignored. -/
theorem touch_then_followup_single_toggle (s : MenuState) (t0 t1 : Nat)
    (e : MenuEvent) (he : followUpEvent e t1) (_hord : t0 ≤ t1)
    (hwin : t1 - t0 < 900) :
    (menuStep (menuStep s (.touchstart t0)) e).toggles = s.toggles + 1 ∧
    (menuStep (menuStep s (.touchstart t0)) e).showCls = !s.showCls := by
  have h1 : menuStep s (.touchstart t0) =
      { showCls := !s.showCls, aria := setExpanded !s.showCls, lastTouch := t0,
        toggles := s.toggles + 1 } := by
    simp +decide [menuStep, toggleMenu, TOUCH_IGNORE_MS]
  rcases he with rfl | ⟨pt, rfl⟩ <;>
    simp +decide [h1, menuStep, toggleMenu, TOUCH_IGNORE_MS, hwin]

/-- Witness for C3: touch-start at 1000 ms then click at 1500 ms. -/
theorem touch_then_followup_single_toggle_witness :
    (menuStep (menuStep ⟨false, some "false", 0, 0⟩ (.touchstart 1000))
        (.click 1500)).toggles = 0 + 1 ∧
    (menuStep (menuStep ⟨false, some "false", 0, 0⟩ (.touchstart 1000))
        (.click 1500)).showCls = !false :=
  touch_then_followup_single_toggle ⟨false, some "false", 0, 0⟩ 1000 1500
    (.click 1500) (Or.inl rfl) (by decide) (by decide)

/-- C9 as stated is false: with pointer events, touch taps at 1000, 1800 and
2600 ms behave as follows — the 1800 ms tap is suppressed before its
timestamp is recorded, so the 2600 ms tap, though only 800 ms after a
previous touch pointer-down, still toggles the menu. -/
theorem touch_pointerdown_dedup_counterexample :
    2600 - 1800 < 900 ∧
    (menuStep (menuStep ⟨false, some "false", 0, 0⟩ (.pointerdown "touch" 1000))
      (.pointerdown "touch" 1800)).toggles = 1 ∧
    (menuStep (menuStep (menuStep ⟨false, some "false", 0, 0⟩
        (.pointerdown "touch" 1000)) (.pointerdown "touch" 1800))
      (.pointerdown "touch" 2600)).toggles = 2 := by
  decide

/-- C9 amended: a touch-type pointer-down arriving within 900 ms of the last
recorded touch timestamp is ignored entirely — no toggle occurs and the
state, including the recorded timestamp, is unchanged; the comparison runs
before any recording, so a suppressed tap does not extend the window. -/
theorem touch_pointerdown_dedup_suppresses (s : MenuState) (t : Nat)
    (h : t - s.lastTouch < 900) :
    menuStep s (.pointerdown "touch" t) = s := by
  simp +decide [menuStep, toggleMenu, TOUCH_IGNORE_MS, h]

/-- Witness for amended C9: a recorded touch at 1000 ms suppresses a touch
pointer-down at 1500 ms. -/
theorem touch_pointerdown_dedup_suppresses_witness :
    menuStep ⟨true, some "true", 1000, 1⟩ (.pointerdown "touch" 1500) =
      ⟨true, some "true", 1000, 1⟩ :=
  touch_pointerdown_dedup_suppresses ⟨true, some "true", 1000, 1⟩ 1500 (by decide)

/-! ## Progress bars: claim C2 -/

/-- When the counter has reached the target the interval callback clears the
interval and the bar is left as it is. -/
theorem progressTicks_stop (target : Int) (w : Nat) (bar : PBar)
    (h : target ≤ (w : Int)) : progressTicks target w bar = bar := by
  rw [progressTicks, if_pos (show (w : Int) ≥ target by omega)]

/-- While the counter is below the target, the iterated interval callback
ends with both fields displaying the target percentage. -/
theorem progressTicks_run (target : Int) (w : Nat) (bar : PBar)
    (hw : (w : Int) < target) :
    progressTicks target w bar =
      ⟨toString target.toNat ++ "%", toString target.toNat ++ "%"⟩ := by
  rw [progressTicks, if_neg (by omega)]
  by_cases h2 : ((w + 1 : Nat) : Int) < target
  · exact progressTicks_run target (w + 1) _ h2
  · have heq : target.toNat = w + 1 := by omega
    rw [progressTicks_stop _ _ _ (by omega), heq]
termination_by (target - w).toNat
decreasing_by omega

/-- C2 amended: after the interval-driven animation completes, a bar whose
parsed target is at least 1 displays the target percentage (text `t%` and
width `t%`); when the target is 0 or negative — in particular when the
`data-progress` attribute is absent or non-numeric — the interval clears on
its first tick and the bar keeps its initial width and text untouched. -/
theorem progress_final_display (attr : Option String) (bar : PBar) :
    animateBar attr bar =
      if 1 ≤ targetOf attr then
        ⟨toString (targetOf attr).toNat ++ "%",
         toString (targetOf attr).toNat ++ "%"⟩
      else bar := by
  unfold animateBar
  by_cases h : 1 ≤ targetOf attr
  · rw [if_pos h]
    exact progressTicks_run _ 0 bar (by omega)
  · rw [if_neg h]
    exact progressTicks_stop _ 0 bar (by omega)

/-- C2 as stated is false for an absent attribute: the parsed target is 0,
the interval clears on its very first tick, and the bar keeps its initial
text "Cargando" instead of displaying "0%". -/
theorem progress_zero_target_counterexample :
    targetOf none = 0 ∧
    animateBar none ⟨"", "Cargando"⟩ = ⟨"", "Cargando"⟩ ∧
    (animateBar none ⟨"", "Cargando"⟩).text ≠ "0%" := by
  have h : animateBar none ⟨"", "Cargando"⟩ = ⟨"", "Cargando"⟩ :=
    progressTicks_stop _ 0 _ (by decide)
  refine ⟨rfl, h, ?_⟩
  rw [h]
  decide

end SiteScript

namespace SiteScript

/-! ## Active links: claims C4 and C5 -/

/-- C4: a click on a navigation link whose href starts with `#` calls
`preventDefault`, leaves exactly the clicked link carrying the `active`
class, and removes the menu list's `show` class (closing an open menu). -/
theorem nav_click_active_unique (s : NavState) (i : Nat) (a : Link)
    (ha : s.links[i]? = some a)
    (hh : startsWithHash (a.href.getD "") = true) :
    (navClickStep s i).2 = true ∧
    (navClickStep s i).1.menuShow = false ∧
    ∀ k (hk : k < (navClickStep s i).1.links.length),
      ((navClickStep s i).1.links[k].active = true ↔ k = i) := by
  have hi : i < s.links.length := by
    by_contra hcon
    rw [List.getElem?_eq_none (by omega)] at ha
    cases ha
  have hstep : navClickStep s i =
      ({ links := activateAt (clearActive s.links) i, menuShow := false },
        startsWithHash (a.href.getD "")) := by
    unfold navClickStep
    rw [ha]
  rw [hstep]
  refine ⟨hh, rfl, ?_⟩
  intro k hk
  exact activateAt_clearActive_active_iff s.links i k hi
    (by simpa [length_activateAt, length_clearActive] using hk)

/-- Witness for C4: clicking the second of two links, whose href is `#b`. -/
theorem nav_click_active_unique_witness :
    (navClickStep ⟨[⟨some "#a", true⟩, ⟨some "#b", false⟩], true⟩ 1).2 = true ∧
    (navClickStep ⟨[⟨some "#a", true⟩, ⟨some "#b", false⟩], true⟩ 1).1.menuShow
      = false :=
  have h := nav_click_active_unique
    ⟨[⟨some "#a", true⟩, ⟨some "#b", false⟩], true⟩ 1 ⟨some "#b", false⟩
    (by decide) (by decide)
  ⟨h.1, h.2.1⟩

/-- Helper: the loop body leaves the links unchanged for a section whose
range does not contain `y`. -/
theorem scrollBody_not_inRange (y : Int) (ls : List Link) (sec : SectionEl)
    (h : ¬ InRange sec y) : scrollBody y ls sec = ls := by
  unfold scrollBody
  rw [if_neg h]

/-- Helper: folding the loop body over sections none of whose ranges contain
`y` changes nothing. -/
theorem scrollFold_no_match (y : Int) (secs : List SectionEl) (ls : List Link)
    (h : ∀ sec ∈ secs, ¬ InRange sec y) :
    secs.foldl (scrollBody y) ls = ls := by
  induction secs generalizing ls with
  | nil => rfl
  | cons a rest ih =>
      rw [List.foldl_cons, scrollBody_not_inRange y ls a (h a (by simp))]
      exact ih ls (fun sec hs => h sec (by simp [hs]))

/-- Helper: the loop body for a section whose range contains `y` and whose
link exists activates exactly that link. -/
theorem scrollBody_found (y : Int) (ls : List Link) (sec : SectionEl) (j : Nat)
    (hin : InRange sec y) (hfl : findLinkIdx ls sec.id = some j) :
    scrollBody y ls sec = activateAt (clearActive ls) j := by
  unfold scrollBody
  rw [if_pos hin, hfl]

/-- Helper: the loop body for a section whose range contains `y` but whose
link does not exist changes nothing. -/
theorem scrollBody_no_link (y : Int) (ls : List Link) (sec : SectionEl)
    (hin : InRange sec y) (hfl : findLinkIdx ls sec.id = none) :
    scrollBody y ls sec = ls := by
  unfold scrollBody
  rw [if_pos hin, hfl]

/-- Helper: when no section's range contains `y`, the fold is the identity
(consequence of `find?` returning nothing). -/
theorem scrollFold_eq_none (y : Int) (secs : List SectionEl) (ls : List Link)
    (hfind : secs.find? (fun sec => decide (InRange sec y)) = none) :
    secs.foldl (scrollBody y) ls = ls :=
  scrollFold_no_match y secs ls
    (fun sec hs => by simpa using List.find?_eq_none.mp hfind sec hs)

/-- Helper: with pairwise disjoint section ranges, when `find?` locates the
section containing `y`, the whole fold equals the loop body applied once to
the incoming link list for that section. -/
theorem scrollFold_eq_found (y : Int) (secs : List SectionEl) (ls : List Link)
    (sec0 : SectionEl)
    (hdisj : secs.Pairwise fun a b => ∀ z : Int, ¬(InRange a z ∧ InRange b z))
    (hfind : secs.find? (fun sec => decide (InRange sec y)) = some sec0) :
    secs.foldl (scrollBody y) ls = scrollBody y ls sec0 := by
  induction secs with
  | nil => cases hfind
  | cons a rest ih =>
      rw [List.pairwise_cons] at hdisj
      by_cases hin : InRange a y
      · rw [List.find?_cons_of_pos _ (by simpa using hin)] at hfind
        injection hfind with h0
        subst h0
        rw [List.foldl_cons]
        exact scrollFold_no_match y rest _
          (fun sec hs hin2 => hdisj.1 sec hs y ⟨hin, hin2⟩)
      · rw [List.find?_cons_of_neg _ (by simpa using hin)] at hfind
        rw [List.foldl_cons, scrollBody_not_inRange y ls a hin]
        exact ih hdisj.2 hfind

/-- Helper: with pairwise disjoint ranges, at most one section's range
contains `y`. -/
theorem inRange_unique {secs : List SectionEl} {y : Int}
    (hdisj : secs.Pairwise fun a b => ∀ z : Int, ¬(InRange a z ∧ InRange b z))
    {sec1 sec2 : SectionEl} (h1 : sec1 ∈ secs) (h2 : sec2 ∈ secs)
    (m1 : InRange sec1 y) (m2 : InRange sec2 y) : sec1 = sec2 := by
  induction secs with
  | nil => cases h1
  | cons a rest ih =>
      rw [List.pairwise_cons] at hdisj
      rcases List.mem_cons.mp h1 with rfl | h1'
      · rcases List.mem_cons.mp h2 with rfl | h2'
        · rfl
        · exact absurd ⟨m1, m2⟩ (hdisj.1 sec2 h2' y)
      · rcases List.mem_cons.mp h2 with rfl | h2'
        · exact absurd ⟨m2, m1⟩ (hdisj.1 sec1 h1' y)
        · exact ih hdisj.2 h1' h2'

/-- Helper: an index returned by `findLinkIdx` is within the list. -/
theorem findLinkIdx_lt_length {links : List Link} {id : String} {j : Nat}
    (h : findLinkIdx links id = some j) : j < links.length := by
  unfold findLinkIdx at h
  exact (List.findIdx?_eq_some_iff_findIdx_eq.mp h).1

/-- C5: assuming the spec's wellformedness condition that section ranges are
pairwise disjoint, and starting from a state with at most one active link:
after the scroll handler runs, at most one navigation link is active, and
whenever some section's range `[top, top+height)` contains `scrollY + 120`
and a nav link targeting that section's id exists (the first such link, as
`querySelector` returns), that link is the unique active one. -/
theorem scroll_active_unique (links : List Link) (sections : List SectionEl)
    (scrollY : Int) (hdisj : DisjointRanges sections)
    (hprev : AtMostOneActive links) :
    AtMostOneActive (scrollStep links sections scrollY) ∧
    ∀ sec ∈ sections, InRange sec (scrollY + 120) →
      ∀ j, findLinkIdx links sec.id = some j →
        ∀ k (hk : k < (scrollStep links sections scrollY).length),
          ((scrollStep links sections scrollY)[k].active = true ↔ k = j) := by
  unfold scrollStep
  cases hfind : sections.find? (fun sec => decide (InRange sec (scrollY + 120))) with
  | none =>
      rw [scrollFold_eq_none (scrollY + 120) sections links hfind]
      refine ⟨hprev, fun sec hmem hin j hj k hk => ?_⟩
      exact absurd hin (by simpa using List.find?_eq_none.mp hfind sec hmem)
  | some sec0 =>
      have hmem0 := List.mem_of_find?_eq_some hfind
      have hin0 : InRange sec0 (scrollY + 120) := by
        simpa using List.find?_some hfind
      rw [scrollFold_eq_found (scrollY + 120) sections links sec0 hdisj hfind]
      cases hfl : findLinkIdx links sec0.id with
      | none =>
          rw [scrollBody_no_link _ _ _ hin0 hfl]
          refine ⟨hprev, fun sec hmem hin j hj k hk => ?_⟩
          rw [inRange_unique hdisj hmem hmem0 hin hin0, hfl] at hj
          cases hj
      | some j0 =>
          rw [scrollBody_found _ _ _ j0 hin0 hfl]
          have hj0 : j0 < links.length := findLinkIdx_lt_length hfl
          refine ⟨atMostOne_activateAt_clearActive links j0 hj0,
            fun sec hmem hin j hj k hk => ?_⟩
          rw [inRange_unique hdisj hmem hmem0 hin hin0, hfl] at hj
          injection hj with hjj
          subst hjj
          exact activateAt_clearActive_active_iff links j0 k hj0 hk

end SiteScript

namespace SiteScript

/-- Witness for C5: two links and two sections with disjoint ranges; at
scroll position 0 the 120px look-ahead lands in section `b`, whose link
(index 1) becomes the unique active one. -/
theorem scroll_active_unique_witness :
    (scrollStep [⟨some "#a", true⟩, ⟨some "#b", false⟩]
      [⟨"a", 0, 100⟩, ⟨"b", 100, 200⟩] 0)[1]?.map Link.active = some true := by
  have hdisj : DisjointRanges [⟨"a", 0, 100⟩, ⟨"b", 100, 200⟩] := by
    simp only [DisjointRanges, List.pairwise_cons, List.mem_singleton,
      List.not_mem_nil, false_implies, implies_true, List.Pairwise.nil,
      and_true, InRange]
    intro b hb z
    subst hb
    simp only
    omega
  have hprev : AtMostOneActive [⟨some "#a", true⟩, ⟨some "#b", false⟩] := by
    intro i j hi hj h1 h2
    simp only [List.length_cons, List.length_nil] at hi hj
    interval_cases i <;> interval_cases j <;> simp_all
  have hlen : 1 < (scrollStep [⟨some "#a", true⟩, ⟨some "#b", false⟩]
      [⟨"a", 0, 100⟩, ⟨"b", 100, 200⟩] 0).length := by decide
  have h := (scroll_active_unique [⟨some "#a", true⟩, ⟨some "#b", false⟩]
      [⟨"a", 0, 100⟩, ⟨"b", 100, 200⟩] 0 hdisj hprev).2
    ⟨"b", 100, 200⟩ (by simp) (by constructor <;> norm_num) 1 (by decide) 1 hlen
  rw [List.getElem?_eq_getElem hlen]
  simp only [Option.map_some']
  rw [h.mpr rfl]

end SiteScript
